import Mathlib

/-!
# Verification of the Kai web application core

Shallow embedding of `src/main.py` and `src/database.py`:
the admin authorization guard, the thought store backed by SQLite,
the question log, and the `/api/ask` request flow (rate limit guard,
input validation, answer generation, IP hashing, logging).

Machine integers do not occur (Python integers are unbounded); SHA-256
words are `Nat` reduced `% 2^32`. Timestamps are abstract `Nat` clock
values supplied by callers.
-/

/-! ## Python `str.strip()` -/

/-- Characters removed by Python's `str.strip()` (ASCII whitespace set;
the inputs relevant here are ASCII). -/
def isPySpace (c : Char) : Bool :=
  c == ' ' || c == '\t' || c == '\n' || c == '\r' || c.toNat == 11 || c.toNat == 12

/-- `str.strip()` on a character list: drop whitespace from both ends. -/
def stripList (l : List Char) : List Char :=
  ((l.dropWhile isPySpace).reverse.dropWhile isPySpace).reverse

/-- Python `question.strip()` / `content.strip()`. -/
def pyStrip (s : String) : String :=
  String.mk (stripList s.data)

/-! ## Thought store (`src/database.py`) -/

/-- A row of the `thoughts` table: `id INTEGER PRIMARY KEY AUTOINCREMENT`,
`content TEXT NOT NULL`, `created_at TIMESTAMP DEFAULT CURRENT_TIMESTAMP`. -/
structure Thought where
  id : Nat
  content : String
  created_at : Nat
deriving DecidableEq

/-- The `thoughts` table: rows in insertion (rowid) order, plus the next
autoincrement id. -/
structure ThoughtsDB where
  thoughts : List Thought
  nextId : Nat
deriving DecidableEq

/-- Insert one thought into a list sorted by `created_at` descending,
keeping it behind rows with a greater-or-equal timestamp. -/
def insertDesc (x : Thought) : List Thought → List Thought
  | [] => [x]
  | y :: ys => if x.created_at ≤ y.created_at then y :: insertDesc x ys else x :: y :: ys

/-- `ORDER BY created_at DESC` over the stored rows. -/
def sortDesc (l : List Thought) : List Thought :=
  l.foldr insertDesc []

/-- `get_thoughts(limit)`: `SELECT id, content, created_at FROM thoughts
ORDER BY created_at DESC LIMIT ?`. SQLite treats a negative `LIMIT` as
"no limit" and returns every row. -/
def get_thoughts (db : ThoughtsDB) (limit : Int) : List Thought :=
  if limit < 0 then sortDesc db.thoughts
  else (sortDesc db.thoughts).take limit.toNat

/-- `add_thought(content)`: `INSERT INTO thoughts (content) VALUES (?)` at
current time `t`; returns the new store and `cursor.lastrowid`. -/
def add_thought (db : ThoughtsDB) (content : String) (t : Nat) : ThoughtsDB × Nat :=
  ({ thoughts := db.thoughts ++ [{ id := db.nextId, content := content, created_at := t }],
     nextId := db.nextId + 1 }, db.nextId)

/-! ## Admin authorization guard (`verify_admin` in `src/main.py`) -/

/-- `verify_admin`: raises `HTTPException(401)` when
`not ADMIN_KEY or auth != f-string(Bearer ADMIN_KEY)`; `auth` is the
`Authorization` header value, `""` when the header is absent. -/
def verify_admin (adminKey auth : String) : Except Nat Unit :=
  if adminKey = "" ∨ auth ≠ "Bearer " ++ adminKey then Except.error 401
  else Except.ok ()

/-! ## SHA-256 (the `hashlib.sha256(...).hexdigest()` call in `api_ask`)

Modelled from the spec: `hashlib` is the Python standard library, outside
this repository; the spec (§3, §8) calls the stored value "a truncated
one-way hash", "the first 16 hex characters of the SHA-256 digest", so the
standard FIPS 180-4 SHA-256 over the UTF-8 bytes of the address is
embedded here. Words are `Nat` values kept below `2^32` by explicit
`% 4294967296`. -/

/-- 32-bit right rotation (inputs are below `2^32`). -/
def rotr (x n : Nat) : Nat :=
  ((x >>> n) ||| (x <<< (32 - n))) % 4294967296

def smallSigma0 (x : Nat) : Nat := rotr x 7 ^^^ rotr x 18 ^^^ (x >>> 3)

def smallSigma1 (x : Nat) : Nat := rotr x 17 ^^^ rotr x 19 ^^^ (x >>> 10)

def bigSigma0 (x : Nat) : Nat := rotr x 2 ^^^ rotr x 13 ^^^ rotr x 22

def bigSigma1 (x : Nat) : Nat := rotr x 6 ^^^ rotr x 11 ^^^ rotr x 25

def shaCh (x y z : Nat) : Nat := (x &&& y) ^^^ ((x ^^^ 4294967295) &&& z)

def shaMaj (x y z : Nat) : Nat := (x &&& y) ^^^ (x &&& z) ^^^ (y &&& z)

/-- The 64 SHA-256 round constants. -/
def kList : List Nat :=
  [1116352408, 1899447441, 3049323471, 3921009573, 961987163,
   1508970993, 2453635748, 2870763221, 3624381080, 310598401,
   607225278, 1426881987, 1925078388, 2162078206, 2614888103,
   3248222580, 3835390401, 4022224774, 264347078, 604807628,
   770255983, 1249150122, 1555081692, 1996064986, 2554220882,
   2821834349, 2952996808, 3210313671, 3336571891, 3584528711,
   113926993, 338241895, 666307205, 773529912, 1294757372,
   1396182291, 1695183700, 1986661051, 2177026350, 2456956037,
   2730485921, 2820302411, 3259730800, 3345764771, 3516065817,
   3600352804, 4094571909, 275423344, 430227734, 506948616,
   659060556, 883997877, 958139571, 1322822218, 1537002063,
   1747873779, 1955562222, 2024104815, 2227730452, 2361852424,
   2428436474, 2756734187, 3204031479, 3329325298]

/-- SHA-256 working state: eight 32-bit words. -/
structure Hash8 where
  a : Nat
  b : Nat
  c : Nat
  d : Nat
  e : Nat
  f : Nat
  g : Nat
  hh : Nat
deriving DecidableEq

/-- Initial hash value. -/
def initH : Hash8 :=
  { a := 1779033703, b := 3144134277, c := 1013904242, d := 2773480762,
    e := 1359893119, f := 2600822924, g := 528734635, hh := 1541459225 }

/-- One compression round. -/
def compressStep (k w : Nat) (s : Hash8) : Hash8 :=
  let t1 := (s.hh + bigSigma1 s.e + shaCh s.e s.f s.g + k + w) % 4294967296
  let t2 := (bigSigma0 s.a + shaMaj s.a s.b s.c) % 4294967296
  { a := (t1 + t2) % 4294967296, b := s.a, c := s.b, d := s.c,
    e := (s.d + t1) % 4294967296, f := s.e, g := s.f, hh := s.g }

/-- Big-endian bytes of width `n` for a value. -/
def toBytesBE : Nat → Nat → List Nat
  | 0, _ => []
  | n + 1, v => toBytesBE n (v / 256) ++ [v % 256]

/-- Group bytes into big-endian 32-bit words. -/
def bytesToWords : List Nat → List Nat
  | b0 :: b1 :: b2 :: b3 :: rest => (((b0 * 256 + b1) * 256 + b2) * 256 + b3) :: bytesToWords rest
  | _ => []

/-- Extend a 16-word block to the 64-word message schedule (`n` more words). -/
def extendW : Nat → List Nat → List Nat
  | 0, w => w
  | n + 1, w =>
    let t := w.length
    let wi := (smallSigma1 (w.getD (t - 2) 0) + w.getD (t - 7) 0 +
               smallSigma0 (w.getD (t - 15) 0) + w.getD (t - 16) 0) % 4294967296
    extendW n (w ++ [wi])

/-- Process one 64-byte block. -/
def hashBlock (h : Hash8) (block : List Nat) : Hash8 :=
  let w := extendW 48 (bytesToWords block)
  let s := (kList.zip w).foldl (fun st p => compressStep p.1 p.2 st) h
  { a := (h.a + s.a) % 4294967296, b := (h.b + s.b) % 4294967296,
    c := (h.c + s.c) % 4294967296, d := (h.d + s.d) % 4294967296,
    e := (h.e + s.e) % 4294967296, f := (h.f + s.f) % 4294967296,
    g := (h.g + s.g) % 4294967296, hh := (h.hh + s.hh) % 4294967296 }

/-- SHA-256 padding: `0x80`, zeros, then the 64-bit big-endian bit length. -/
def padBytes (msg : List Nat) : List Nat :=
  msg ++ [128] ++ List.replicate ((64 - (msg.length + 9) % 64) % 64) 0 ++
    toBytesBE 8 (msg.length * 8)

/-- Split into 64-byte blocks (`fuel` bounds the recursion; it is called
with the list length, which suffices since every step consumes bytes). -/
def chunksGo : Nat → List Nat → List (List Nat)
  | 0, _ => []
  | _, [] => []
  | n + 1, l => l.take 64 :: chunksGo n (l.drop 64)

/-- The eight digest words of a message given as bytes. -/
def sha256Words (msg : List Nat) : Hash8 :=
  (chunksGo (padBytes msg).length (padBytes msg)).foldl hashBlock initH

/-- Lowercase hex digit. -/
def hexDigit (n : Nat) : Char :=
  if n < 10 then Char.ofNat (48 + n) else Char.ofNat (87 + n)

/-- Eight hex characters of a 32-bit word, most significant first. -/
def wordHex (w : Nat) : List Char :=
  [hexDigit (w / 268435456 % 16), hexDigit (w / 16777216 % 16),
   hexDigit (w / 1048576 % 16), hexDigit (w / 65536 % 16),
   hexDigit (w / 4096 % 16), hexDigit (w / 256 % 16),
   hexDigit (w / 16 % 16), hexDigit (w % 16)]

/-- `hexdigest()`: 64 hex characters of the digest. -/
def sha256HexChars (msg : List Nat) : List Char :=
  let d := sha256Words msg
  wordHex d.a ++ wordHex d.b ++ wordHex d.c ++ wordHex d.d ++
  wordHex d.e ++ wordHex d.f ++ wordHex d.g ++ wordHex d.hh

/-- UTF-8 bytes of one character (Python `str.encode()`). -/
def utf8Char (c : Char) : List Nat :=
  let n := c.toNat
  if n < 128 then [n]
  else if n < 2048 then [192 + n / 64, 128 + n % 64]
  else if n < 65536 then [224 + n / 4096, 128 + n / 64 % 64, 128 + n % 64]
  else [240 + n / 262144, 128 + n / 4096 % 64, 128 + n / 64 % 64, 128 + n % 64]

/-- UTF-8 bytes of a string (Python `str.encode()`). -/
def utf8Encode (s : String) : List Nat :=
  s.data.foldr (fun c acc => utf8Char c ++ acc) []

/-- `hashlib.sha256(get_remote_address(request).encode()).hexdigest()[:16]`. -/
def ip_hash_of (addr : String) : String :=
  String.mk ((sha256HexChars (utf8Encode addr)).take 16)

/-! ## Question log (`src/database.py`) -/

/-- A row of the `questions` table. -/
structure QuestionLogEntry where
  id : Nat
  question : String
  answer : Option String
  ip_hash : String
  created_at : Nat
deriving DecidableEq

/-- `log_question(question, answer, ip_hash)`: `INSERT INTO questions
(question, answer, ip_hash) VALUES (?, ?, ?)` at current time `t`. -/
def log_question (qs : List QuestionLogEntry) (nextId : Nat)
    (question : String) (answer : String) (iph : String) (t : Nat) :
    List QuestionLogEntry × Nat :=
  (qs ++ [{ id := nextId, question := question, answer := some answer,
            ip_hash := iph, created_at := t }], nextId + 1)

/-! ## Rate limiter and the `/api/ask` flow (`src/main.py`) -/

/-- State threaded through `/api/ask` requests: the rate limiter's
per-address hit records and the `questions` table. -/
structure AskState where
  hits : List (String × Nat)
  questions : List QuestionLogEntry
  nextQuestionId : Nat
deriving DecidableEq

/-- Modelled from the spec: the `slowapi` limiter behind
`@limiter.limit("3/minute")` with `key_func=get_remote_address` is an
external library; §4.3 specifies "3 per rolling 60-second window" keyed by
the client address. A request at time `t` is admitted when fewer than 3
admitted requests from the same address lie in the window `(t - 60, t]`. -/
def rateAllowed (hits : List (String × Nat)) (addr : String) (t : Nat) : Bool :=
  (hits.filter (fun p => p.1 == addr && decide (t < p.2 + 60))).length < 3

/-- Outcome of the single `client.messages.create` attempt. -/
inductive ApiOutcome where
  | success (ans : String)
  | rateLimitError
  | otherError
deriving DecidableEq

/-- Result of a request to `POST /api/ask`: HTTP status, the `answer`
field of a 200 body, the error detail otherwise, the new state, and
whether the generation API call was attempted. -/
structure AskResult where
  status : Nat
  answer? : Option String
  detail : String
  state : AskState
  apiCalled : Bool
deriving DecidableEq

/-- `POST /api/ask` (`api_ask` with its `@limiter.limit` guard and the
`RateLimitExceeded` handler). `apiKey` is `os.environ.get` of the
credential (`none` when unset); `api` is the outcome the external
generation API would produce if called. The limiter records a hit for
every admitted request before the handler body runs, as `slowapi` does. -/
def api_ask (st : AskState) (addr : String) (t : Nat) (question : String)
    (apiKey : Option String) (api : ApiOutcome) : AskResult :=
  if rateAllowed st.hits addr t = false then
    { status := 429, answer? := none,
      detail := "Too many questions. I need time to think. Try again in a minute.",
      state := st, apiCalled := false }
  else
    let st1 : AskState := { st with hits := (addr, t) :: st.hits }
    let q := pyStrip question
    if q = "" then
      { status := 400, answer? := none, detail := "Empty question",
        state := st1, apiCalled := false }
    else if q.length > 500 then
      { status := 400, answer? := none, detail := "Question too long (max 500 chars)",
        state := st1, apiCalled := false }
    else if apiKey.getD "" = "" then
      { status := 503, answer? := none,
        detail := "I\x27m not connected right now. Check back later.",
        state := st1, apiCalled := false }
    else
      match api with
      | ApiOutcome.success ans =>
        let logged := log_question st1.questions st1.nextQuestionId q ans (ip_hash_of addr) t
        { status := 200, answer? := some ans, detail := "",
          state := { st1 with questions := logged.1, nextQuestionId := logged.2 },
          apiCalled := true }
      | ApiOutcome.rateLimitError =>
        { status := 429, answer? := none,
          detail := "I\x27m a bit overwhelmed. Try again in a moment.",
          state := st1, apiCalled := true }
      | ApiOutcome.otherError =>
        { status := 500, answer? := none,
          detail := "Something went wrong in my thinking.",
          state := st1, apiCalled := true }

/-! ## Thought endpoints (`src/main.py`) -/

/-- `GET /api/thoughts`: `get_thoughts(limit=min(limit, 100))`. -/
def api_get_thoughts (db : ThoughtsDB) (limit : Int) : List Thought :=
  get_thoughts db (min limit 100)

/-- `POST /api/thoughts`: `verify_admin`, reject blank content, then
`add_thought(content.strip())`. Returns HTTP status, the new id on
success, and the resulting store. -/
def api_add_thought (db : ThoughtsDB) (adminKey auth content : String) (t : Nat) :
    Nat × Option Nat × ThoughtsDB :=
  match verify_admin adminKey auth with
  | Except.error s => (s, none, db)
  | Except.ok _ =>
    if pyStrip content = "" then (400, none, db)
    else
      let r := add_thought db (pyStrip content) t
      (200, some r.2, r.1)

/-- Invariant of §3: every stored Thought has non-empty, trimmed content. -/
def ThoughtInv (db : ThoughtsDB) : Prop :=
  ∀ th ∈ db.thoughts, th.content ≠ "" ∧ pyStrip th.content = th.content

/-- A store holding 101 thoughts, for evaluating the `/api/thoughts`
limit handling on a concrete population. -/
def db101 : ThoughtsDB :=
  { thoughts := (List.range 101).map
      (fun i => { id := i, content := "t", created_at := i }),
    nextId := 101 }

/-! ## Basic lemmas: sorting -/

theorem length_insertDesc (x : Thought) (l : List Thought) :
    (insertDesc x l).length = l.length + 1 := by
  induction l with
  | nil => rfl
  | cons y ys ih =>
    simp only [insertDesc]
    split
    · simp [ih]
    · simp

theorem mem_insertDesc {a x : Thought} {l : List Thought} :
    a ∈ insertDesc x l ↔ a = x ∨ a ∈ l := by
  induction l with
  | nil => simp [insertDesc]
  | cons y ys ih =>
    simp only [insertDesc]
    split
    · simp [ih]
      tauto
    · simp

theorem length_sortDesc (l : List Thought) : (sortDesc l).length = l.length := by
  induction l with
  | nil => rfl
  | cons y ys ih => simp [sortDesc, List.foldr] at ih ⊢; simp [length_insertDesc, ih]

theorem pairwise_insertDesc {x : Thought} {l : List Thought}
    (h : l.Pairwise (fun a b => b.created_at ≤ a.created_at)) :
    (insertDesc x l).Pairwise (fun a b => b.created_at ≤ a.created_at) := by
  induction l with
  | nil => simp [insertDesc]
  | cons y ys ih =>
    simp only [insertDesc]
    rcases h with _ | ⟨hy, hys⟩
    split
    · refine List.Pairwise.cons ?_ (ih hys)
      intro a ha
      rcases mem_insertDesc.mp ha with rfl | ha
      · assumption
      · exact hy a ha
    · rename_i hlt
      refine List.Pairwise.cons ?_ (List.Pairwise.cons hy hys)
      intro a ha
      rcases List.mem_cons.mp ha with rfl | ha
      · omega
      · exact le_trans (hy a ha) (le_of_lt (lt_of_not_le hlt))

theorem pairwise_sortDesc (l : List Thought) :
    (sortDesc l).Pairwise (fun a b => b.created_at ≤ a.created_at) := by
  induction l with
  | nil => simp [sortDesc]
  | cons y ys ih => exact pairwise_insertDesc ih

theorem insertDesc_cons_of_le {x y : Thought} {l : List Thought}
    (h : x.created_at ≤ y.created_at) :
    insertDesc x (y :: l) = y :: insertDesc x l := by
  simp [insertDesc, h]

theorem foldr_insertDesc_top {t : Nat} (x : Thought) (hx : x.created_at = t)
    (l : List Thought) (h : ∀ y ∈ l, y.created_at < t) (acc : List Thought) :
    List.foldr insertDesc (x :: acc) l = x :: List.foldr insertDesc acc l := by
  induction l with
  | nil => rfl
  | cons y ys ih =>
    have hy : y.created_at < t := h y (by simp)
    have hys : ∀ z ∈ ys, z.created_at < t := fun z hz => h z (by simp [hz])
    simp only [List.foldr]
    rw [ih hys, insertDesc_cons_of_le (by omega)]

theorem sortDesc_append_top {t : Nat} (l : List Thought) (x : Thought)
    (hx : x.created_at = t) (h : ∀ y ∈ l, y.created_at < t) :
    sortDesc (l ++ [x]) = x :: sortDesc l := by
  unfold sortDesc
  rw [List.foldr_append]
  simp only [List.foldr, insertDesc]
  exact foldr_insertDesc_top x hx l h []

example : sortDesc [⟨0, "a", 1⟩, ⟨1, "b", 5⟩, ⟨2, "c", 3⟩] =
    [⟨1, "b", 5⟩, ⟨2, "c", 3⟩, ⟨0, "a", 1⟩] := by decide

example : get_thoughts ⟨[⟨0, "a", 1⟩, ⟨1, "b", 5⟩, ⟨2, "c", 3⟩], 3⟩ 2 =
    [⟨1, "b", 5⟩, ⟨2, "c", 3⟩] := by decide

example : verify_admin "s" "Bearer s" = Except.ok () := rfl
example : verify_admin "" "Bearer " = Except.error 401 := rfl


/-! ## Basic lemmas: stripping, hashing, the ask flow -/

theorem stripList_eq_rdropWhile (l : List Char) :
    stripList l = List.rdropWhile isPySpace (List.dropWhile isPySpace l) := rfl

theorem dropWhile_rdropWhile_dropWhile (l : List Char) :
    List.dropWhile isPySpace (List.rdropWhile isPySpace (List.dropWhile isPySpace l)) =
      List.rdropWhile isPySpace (List.dropWhile isPySpace l) := by
  cases hrd : List.rdropWhile isPySpace (List.dropWhile isPySpace l) with
  | nil => simp
  | cons x xs =>
    obtain ⟨u, hu⟩ := List.rdropWhile_prefix isPySpace (List.dropWhile isPySpace l)
    rw [hrd] at hu
    have hlen : 0 < (List.dropWhile isPySpace l).length := by
      rw [← hu]; simp
    have hnot := List.dropWhile_get_zero_not isPySpace l hlen
    have hx : (List.dropWhile isPySpace l).get ⟨0, hlen⟩ = x := by
      simp [← hu]
    rw [hx] at hnot
    simp [List.dropWhile_cons, hnot]

theorem stripList_idem (l : List Char) : stripList (stripList l) = stripList l := by
  rw [stripList_eq_rdropWhile (stripList l), stripList_eq_rdropWhile l,
    dropWhile_rdropWhile_dropWhile, List.rdropWhile_idempotent]

theorem pyStrip_idem (s : String) : pyStrip (pyStrip s) = pyStrip s :=
  congrArg String.mk (stripList_idem s.data)

theorem length_wordHex (w : Nat) : (wordHex w).length = 8 := rfl

theorem length_sha256HexChars (m : List Nat) : (sha256HexChars m).length = 64 := by
  simp [sha256HexChars, List.length_append, length_wordHex]

theorem ip_hash_of_length (addr : String) : (ip_hash_of addr).length = 16 := by
  show ((sha256HexChars (utf8Encode addr)).take 16).length = 16
  rw [List.length_take, length_sha256HexChars]
  decide

/-- An admitted `/api/ask` request records exactly one limiter hit. -/
theorem hits_of_admitted (st : AskState) (addr : String) (t : Nat) (q : String)
    (k : Option String) (a : ApiOutcome) (h : rateAllowed st.hits addr t = true) :
    (api_ask st addr t q k a).state.hits = (addr, t) :: st.hits := by
  simp only [api_ask, h]
  norm_num
  split <;> try rfl
  split <;> try rfl
  split <;> try rfl
  split <;> rfl

/-! ## Claims -/

/-- C1: the admin authorization guard succeeds if and only if the
configured secret `ADMIN_KEY` is non-empty and the presented
`Authorization` header exactly equals `"Bearer "` followed by that
secret; in every other case, including an empty `ADMIN_KEY`, it denies
access with a 401 error. -/
theorem C1_verify_admin_iff (adminKey auth : String) :
    (verify_admin adminKey auth = Except.ok () ↔
      adminKey ≠ "" ∧ auth = "Bearer " ++ adminKey) ∧
    (¬(adminKey ≠ "" ∧ auth = "Bearer " ++ adminKey) →
      verify_admin adminKey auth = Except.error 401) := by
  by_cases hc : adminKey = "" ∨ auth ≠ "Bearer " ++ adminKey
  · rw [verify_admin, if_pos hc]
    constructor
    · constructor
      · intro h
        exact absurd h (by simp)
      · intro h
        tauto
    · intro _
      rfl
  · rw [verify_admin, if_neg hc]
    push_neg at hc
    constructor
    · constructor
      · intro _
        exact ⟨hc.1, hc.2⟩
      · intro _
        rfl
    · intro h
      exact absurd ⟨hc.1, hc.2⟩ h

/-- Witness for C1 at a concrete secret and header. -/
theorem C1_witness :
    verify_admin "secret" "Bearer secret" = Except.ok () :=
  (C1_verify_admin_iff "secret" "Bearer secret").1.mpr ⟨by decide, by decide⟩

/-- C7: for every positive limit `n` and every store state,
`get_thoughts` returns at most `min n (total count)` thoughts, ordered by
`created_at` descending, and the empty list when no thoughts exist. -/
theorem C7_get_thoughts_bounded_sorted (db : ThoughtsDB) (n : Int) (hn : 0 < n) :
    (get_thoughts db n).length ≤ min n.toNat db.thoughts.length ∧
    (get_thoughts db n).Pairwise (fun a b => b.created_at ≤ a.created_at) ∧
    (db.thoughts = [] → get_thoughts db n = []) := by
  have hnn : ¬ n < 0 := by omega
  rw [get_thoughts, if_neg hnn]
  refine ⟨?_, ?_, ?_⟩
  · rw [List.length_take, length_sortDesc]
  · exact (pairwise_sortDesc db.thoughts).sublist (List.take_sublist _ _)
  · intro h
    simp [h, sortDesc]

/-- Witness for C7 on a concrete two-row store and limit 1. -/
theorem C7_witness :
    (get_thoughts ⟨[⟨0, "a", 1⟩, ⟨1, "b", 3⟩], 2⟩ 1).length ≤
        min (Int.toNat 1) ([⟨0, "a", 1⟩, ⟨1, "b", 3⟩] : List Thought).length ∧
    (get_thoughts ⟨[⟨0, "a", 1⟩, ⟨1, "b", 3⟩], 2⟩ 1).Pairwise
        (fun a b => b.created_at ≤ a.created_at) ∧
    ([⟨0, "a", 1⟩, ⟨1, "b", 3⟩] = ([] : List Thought) →
      get_thoughts ⟨[⟨0, "a", 1⟩, ⟨1, "b", 3⟩], 2⟩ 1 = []) :=
  C7_get_thoughts_bounded_sorted ⟨[⟨0, "a", 1⟩, ⟨1, "b", 3⟩], 2⟩ 1 (by decide)

/-- C8: adding a thought whose timestamp is newer than every stored row,
then listing with limit 1, returns exactly that thought. -/
theorem C8_add_then_list_one (db : ThoughtsDB) (content : String) (t : Nat)
    (_hc : content ≠ "") (ht : ∀ th ∈ db.thoughts, th.created_at < t) :
    get_thoughts (add_thought db content t).1 1 =
      [{ id := db.nextId, content := content, created_at := t }] := by
  rw [get_thoughts, if_neg (by decide)]
  show ((sortDesc (db.thoughts ++ [_])).take (Int.toNat 1)) = _
  rw [sortDesc_append_top db.thoughts _ rfl ht]
  rfl

/-- Witness for C8 on a concrete one-row store. -/
theorem C8_witness :
    get_thoughts (add_thought ⟨[⟨0, "old", 2⟩], 1⟩ "new" 5).1 1 =
      [{ id := 1, content := "new", created_at := 5 }] :=
  C8_add_then_list_one ⟨[⟨0, "old", 2⟩], 1⟩ "new" 5 (by decide) (by decide)

/-- C6: `POST /api/thoughts` without a valid admin credential always
responds 401 and inserts no row, regardless of content; with a valid
credential but blank (empty after trimming) content it always responds
400 and inserts no row. -/
theorem C6_add_thought_guards (db : ThoughtsDB) (adminKey auth content : String) (t : Nat) :
    (¬(adminKey ≠ "" ∧ auth = "Bearer " ++ adminKey) →
      api_add_thought db adminKey auth content t = (401, none, db)) ∧
    ((adminKey ≠ "" ∧ auth = "Bearer " ++ adminKey) → pyStrip content = "" →
      api_add_thought db adminKey auth content t = (400, none, db)) := by
  constructor
  · intro h
    have hv : verify_admin adminKey auth = Except.error 401 := by
      rw [verify_admin, if_pos (by tauto)]
    rw [api_add_thought, hv]
  · intro h hs
    have hv : verify_admin adminKey auth = Except.ok () := by
      rw [verify_admin, if_neg (by tauto)]
    rw [api_add_thought, hv, if_pos hs]

/-- Witness for C6: a request with no configured secret is refused. -/
theorem C6_witness :
    api_add_thought ⟨[], 0⟩ "" "Bearer x" "hello" 0 = (401, none, ⟨[], 0⟩) :=
  (C6_add_thought_guards ⟨[], 0⟩ "" "Bearer x" "hello" 0).1 (by simp)

/-- C10: every thought created through `POST /api/thoughts` stores the
trimmed submitted content, so the invariant "every stored content is
non-empty and has no leading or trailing whitespace" is preserved by the
endpoint in all its branches. -/
theorem C10_trimmed_invariant (db : ThoughtsDB) (adminKey auth content : String)
    (t : Nat) (hinv : ThoughtInv db) :
    ThoughtInv (api_add_thought db adminKey auth content t).2.2 := by
  rw [api_add_thought]
  cases hv : verify_admin adminKey auth with
  | error s => exact hinv
  | ok u =>
    by_cases hs : pyStrip content = ""
    · rw [if_pos hs]
      exact hinv
    · rw [if_neg hs]
      intro th hth
      rcases List.mem_append.mp hth with h | h
      · exact hinv th h
      · rw [List.mem_singleton] at h
        subst h
        exact ⟨hs, pyStrip_idem content⟩

/-- Witness for C10: the invariant holds after adding to an empty store. -/
theorem C10_witness :
    ThoughtInv (api_add_thought ⟨[], 0⟩ "k" "Bearer k" "  hello  " 3).2.2 :=
  C10_trimmed_invariant ⟨[], 0⟩ "k" "Bearer k" "  hello  " 3
    (by intro th h; exact absurd h (List.not_mem_nil th))

/-- C9: the claim "for every integer `limit`, `GET /api/thoughts` clamps
the limit to at most 100, so the response never contains more than 100
entries" fails on the code: `min(limit, 100)` leaves a negative limit
negative, and SQLite treats a negative `LIMIT` as unlimited, so
`limit = -1` over 101 stored thoughts returns all 101 of them. -/
theorem C9_negative_limit_uncapped :
    ¬((api_get_thoughts db101 (-1)).length ≤ 100) := by decide

/-- C2: every `POST /api/ask` request that succeeds (status 200 with the
generated answer) appends exactly one `QuestionLogEntry` whose `question`
is the trimmed submitted text and whose `ip_hash` is the first 16 hex
characters of the SHA-256 digest of the client address — a 16-character
string, never the raw address. The entry carries the obtained answer,
which is the one returned in the response. -/
theorem C2_ask_success_logs_once (st : AskState) (addr : String) (t : Nat)
    (question : String) (apiKey : Option String) (api : ApiOutcome)
    (h : (api_ask st addr t question apiKey api).status = 200) :
    ∃ ans, (api_ask st addr t question apiKey api).answer? = some ans ∧
      (api_ask st addr t question apiKey api).state.questions =
        st.questions ++ [{ id := st.nextQuestionId, question := pyStrip question,
                           answer := some ans, ip_hash := ip_hash_of addr,
                           created_at := t }] ∧
      (ip_hash_of addr).length = 16 := by
  cases api with
  | success ans =>
    simp only [api_ask] at h ⊢
    repeat' split at h
    any_goals (solve | simp at h)
    rename_i hrate hq hlen hkey
    refine ⟨ans, ?_, ?_, ip_hash_of_length addr⟩
    · rw [if_neg hrate, if_neg hq, if_neg hlen, if_neg hkey]
    · rw [if_neg hrate, if_neg hq, if_neg hlen, if_neg hkey]
      simp [log_question]
  | rateLimitError =>
    simp only [api_ask] at h
    repeat' split at h
    all_goals simp at h
  | otherError =>
    simp only [api_ask] at h
    repeat' split at h
    all_goals simp at h

/-- Witness for C2: a concrete successful ask from a fresh state. -/
theorem C2_witness :
    ∃ ans, (api_ask ⟨[], [], 0⟩ "1.2.3.4" 7 " What is time? " (some "sk")
        (ApiOutcome.success "Time is a river.")).answer? = some ans ∧
      (api_ask ⟨[], [], 0⟩ "1.2.3.4" 7 " What is time? " (some "sk")
        (ApiOutcome.success "Time is a river.")).state.questions =
        ([] : List QuestionLogEntry) ++
          [{ id := 0, question := pyStrip " What is time? ",
             answer := some ans, ip_hash := ip_hash_of "1.2.3.4",
             created_at := 7 }] ∧
      (ip_hash_of "1.2.3.4").length = 16 :=
  C2_ask_success_logs_once ⟨[], [], 0⟩ "1.2.3.4" 7 " What is time? "
    (some "sk") (ApiOutcome.success "Time is a river.") (by decide)

/-- C3 counterexample: the claim "for every valid question, a missing
generation credential always yields 503" fails as stated, because the
rate-limit guard runs first: from a state holding three recent hits for
the address, a valid question with no credential yields 429, not 503. -/
theorem C3_counterexample :
    pyStrip "hi" ≠ "" ∧ (pyStrip "hi").length ≤ 500 ∧
    (api_ask ⟨[("1.2.3.4", 0), ("1.2.3.4", 10), ("1.2.3.4", 20)], [], 0⟩
        "1.2.3.4" 30 "hi" none ApiOutcome.otherError).status = 429 ∧
    (api_ask ⟨[("1.2.3.4", 0), ("1.2.3.4", 10), ("1.2.3.4", 20)], [], 0⟩
        "1.2.3.4" 30 "hi" none ApiOutcome.otherError).status ≠ 503 := by
  decide

/-- C3 (amended): for every valid question that the rate limiter admits,
a missing (or empty) generation credential always yields 503, no call to
the external generation API is attempted, and no `QuestionLogEntry` is
written. -/
theorem C3_no_key_503 (st : AskState) (addr : String) (t : Nat)
    (question : String) (apiKey : Option String) (api : ApiOutcome)
    (hrate : rateAllowed st.hits addr t = true)
    (hq : pyStrip question ≠ "") (hlen : (pyStrip question).length ≤ 500)
    (hkey : apiKey.getD "" = "") :
    (api_ask st addr t question apiKey api).status = 503 ∧
    (api_ask st addr t question apiKey api).apiCalled = false ∧
    (api_ask st addr t question apiKey api).state.questions = st.questions := by
  have hrate' : ¬(rateAllowed st.hits addr t = false) := by simp [hrate]
  have hlen' : ¬((pyStrip question).length > 500) := by omega
  simp only [api_ask, if_neg hrate', if_neg hq, if_neg hlen', if_pos hkey]
  simp

/-- Witness for the amended C3 at a concrete admitted request. -/
theorem C3_witness :
    (api_ask ⟨[], [], 0⟩ "1.2.3.4" 0 "hi" none ApiOutcome.otherError).status = 503 ∧
    (api_ask ⟨[], [], 0⟩ "1.2.3.4" 0 "hi" none ApiOutcome.otherError).apiCalled = false ∧
    (api_ask ⟨[], [], 0⟩ "1.2.3.4" 0 "hi" none ApiOutcome.otherError).state.questions =
      ([] : List QuestionLogEntry) :=
  C3_no_key_503 ⟨[], [], 0⟩ "1.2.3.4" 0 "hi" none ApiOutcome.otherError
    (by decide) (by decide) (by decide) (by decide)

/-- C4: when the rate-limit guard admits the request (the other guard on
this route), `POST /api/ask` validates the trimmed question: blank gives
400, trimmed length above 500 (so exactly 501) gives 400, and in both
400 cases no generation API call is attempted and no log entry is
written; a trimmed question of exactly 500 characters passes validation
(the response is never 400). -/
theorem C4_question_validation (st : AskState) (addr : String) (t : Nat)
    (question : String) (apiKey : Option String) (api : ApiOutcome)
    (hrate : rateAllowed st.hits addr t = true) :
    (pyStrip question = "" →
      (api_ask st addr t question apiKey api).status = 400 ∧
      (api_ask st addr t question apiKey api).apiCalled = false ∧
      (api_ask st addr t question apiKey api).state.questions = st.questions) ∧
    ((pyStrip question).length > 500 →
      (api_ask st addr t question apiKey api).status = 400 ∧
      (api_ask st addr t question apiKey api).apiCalled = false ∧
      (api_ask st addr t question apiKey api).state.questions = st.questions) ∧
    ((pyStrip question).length = 500 →
      (api_ask st addr t question apiKey api).status ≠ 400) := by
  have hrate' : ¬(rateAllowed st.hits addr t = false) := by simp [hrate]
  refine ⟨?_, ?_, ?_⟩
  · intro hq
    simp only [api_ask, if_neg hrate', if_pos hq]
    simp
  · intro hlen
    have hq : ¬(pyStrip question = "") := by
      intro hq
      rw [hq] at hlen
      simp at hlen
    simp only [api_ask, if_neg hrate', if_neg hq, if_pos hlen]
    simp
  · intro hlen
    have hq : ¬(pyStrip question = "") := by
      intro hq
      rw [hq] at hlen
      simp at hlen
    have hlen' : ¬((pyStrip question).length > 500) := by omega
    simp only [api_ask, if_neg hrate', if_neg hq, if_neg hlen']
    split
    · simp
    · cases api <;> simp

/-- Witness for C4 at a concrete 501-character question. -/
theorem C4_witness :
    (pyStrip (String.mk (List.replicate 501 'a')) = "" →
      (api_ask ⟨[], [], 0⟩ "1.2.3.4" 0 (String.mk (List.replicate 501 'a'))
          none ApiOutcome.otherError).status = 400 ∧
      (api_ask ⟨[], [], 0⟩ "1.2.3.4" 0 (String.mk (List.replicate 501 'a'))
          none ApiOutcome.otherError).apiCalled = false ∧
      (api_ask ⟨[], [], 0⟩ "1.2.3.4" 0 (String.mk (List.replicate 501 'a'))
          none ApiOutcome.otherError).state.questions = ([] : List QuestionLogEntry)) ∧
    ((pyStrip (String.mk (List.replicate 501 'a'))).length > 500 →
      (api_ask ⟨[], [], 0⟩ "1.2.3.4" 0 (String.mk (List.replicate 501 'a'))
          none ApiOutcome.otherError).status = 400 ∧
      (api_ask ⟨[], [], 0⟩ "1.2.3.4" 0 (String.mk (List.replicate 501 'a'))
          none ApiOutcome.otherError).apiCalled = false ∧
      (api_ask ⟨[], [], 0⟩ "1.2.3.4" 0 (String.mk (List.replicate 501 'a'))
          none ApiOutcome.otherError).state.questions = ([] : List QuestionLogEntry)) ∧
    ((pyStrip (String.mk (List.replicate 501 'a'))).length = 500 →
      (api_ask ⟨[], [], 0⟩ "1.2.3.4" 0 (String.mk (List.replicate 501 'a'))
          none ApiOutcome.otherError).status ≠ 400) :=
  C4_question_validation ⟨[], [], 0⟩ "1.2.3.4" 0
    (String.mk (List.replicate 501 'a')) none ApiOutcome.otherError (by decide)

/-- C5: for an address with no recorded hits, three questions at times
`t1 ≤ t2 ≤ t3` are all admitted by the rate limiter, and a 4th question
within 60 seconds of the first three (`t4 < t1 + 60`) is always rejected
with 429 and the distinct "too many requests" payload, before reaching
the answer generator: no API call is attempted and no log entry is
written for it. -/
theorem C5_fourth_request_429 (st0 : AskState) (addr : String)
    (t1 t2 t3 t4 : Nat) (q1 q2 q3 q4 : String)
    (k1 k2 k3 k4 : Option String) (a1 a2 a3 a4 : ApiOutcome)
    (hfresh : ∀ p ∈ st0.hits, p.1 ≠ addr)
    (h12 : t1 ≤ t2) (h23 : t2 ≤ t3) (h34 : t3 ≤ t4) (hwin : t4 < t1 + 60) :
    rateAllowed st0.hits addr t1 = true ∧
    rateAllowed (api_ask st0 addr t1 q1 k1 a1).state.hits addr t2 = true ∧
    rateAllowed (api_ask (api_ask st0 addr t1 q1 k1 a1).state
        addr t2 q2 k2 a2).state.hits addr t3 = true ∧
    (api_ask (api_ask (api_ask (api_ask st0 addr t1 q1 k1 a1).state
        addr t2 q2 k2 a2).state addr t3 q3 k3 a3).state addr t4 q4 k4 a4).status = 429 ∧
    (api_ask (api_ask (api_ask (api_ask st0 addr t1 q1 k1 a1).state
        addr t2 q2 k2 a2).state addr t3 q3 k3 a3).state addr t4 q4 k4 a4).detail =
      "Too many questions. I need time to think. Try again in a minute." ∧
    (api_ask (api_ask (api_ask (api_ask st0 addr t1 q1 k1 a1).state
        addr t2 q2 k2 a2).state addr t3 q3 k3 a3).state addr t4 q4 k4 a4).apiCalled = false ∧
    (api_ask (api_ask (api_ask (api_ask st0 addr t1 q1 k1 a1).state
        addr t2 q2 k2 a2).state addr t3 q3 k3 a3).state addr t4 q4 k4 a4).state.questions =
      (api_ask (api_ask (api_ask st0 addr t1 q1 k1 a1).state
        addr t2 q2 k2 a2).state addr t3 q3 k3 a3).state.questions := by
  have hflt : ∀ u : Nat,
      st0.hits.filter (fun p => p.1 == addr && decide (u < p.2 + 60)) = [] := by
    intro u
    refine List.filter_eq_nil_iff.mpr ?_
    intro p hp
    simp [hfresh p hp]
  have w2 : t2 < t1 + 60 := by omega
  have w3a : t3 < t2 + 60 := by omega
  have w3b : t3 < t1 + 60 := by omega
  have w4b : t4 < t2 + 60 := by omega
  have w4c : t4 < t3 + 60 := by omega
  have hr1 : rateAllowed st0.hits addr t1 = true := by
    simp [rateAllowed, hflt t1]
  have hr2 : rateAllowed ((addr, t1) :: st0.hits) addr t2 = true := by
    simp [rateAllowed, List.filter_cons, w2, hflt t2]
  have hr3 : rateAllowed ((addr, t2) :: (addr, t1) :: st0.hits) addr t3 = true := by
    simp [rateAllowed, List.filter_cons, w3a, w3b, hflt t3]
  have hr4 : rateAllowed ((addr, t3) :: (addr, t2) :: (addr, t1) :: st0.hits)
      addr t4 = false := by
    simp [rateAllowed, List.filter_cons, hwin, w4b, w4c, hflt t4]
  have e1 : (api_ask st0 addr t1 q1 k1 a1).state.hits = (addr, t1) :: st0.hits :=
    hits_of_admitted _ _ _ _ _ _ hr1
  have hr2' : rateAllowed (api_ask st0 addr t1 q1 k1 a1).state.hits addr t2 = true := by
    rw [e1]
    exact hr2
  have e2 : (api_ask (api_ask st0 addr t1 q1 k1 a1).state
      addr t2 q2 k2 a2).state.hits = (addr, t2) :: (addr, t1) :: st0.hits := by
    rw [hits_of_admitted _ _ _ _ _ _ hr2', e1]
  have hr3' : rateAllowed (api_ask (api_ask st0 addr t1 q1 k1 a1).state
      addr t2 q2 k2 a2).state.hits addr t3 = true := by
    rw [e2]
    exact hr3
  have e3 : (api_ask (api_ask (api_ask st0 addr t1 q1 k1 a1).state
      addr t2 q2 k2 a2).state addr t3 q3 k3 a3).state.hits =
      (addr, t3) :: (addr, t2) :: (addr, t1) :: st0.hits := by
    rw [hits_of_admitted _ _ _ _ _ _ hr3', e2]
  have hr4' : rateAllowed (api_ask (api_ask (api_ask st0 addr t1 q1 k1 a1).state
      addr t2 q2 k2 a2).state addr t3 q3 k3 a3).state.hits addr t4 = false := by
    rw [e3]
    exact hr4
  have hfin : api_ask (api_ask (api_ask (api_ask st0 addr t1 q1 k1 a1).state
      addr t2 q2 k2 a2).state addr t3 q3 k3 a3).state addr t4 q4 k4 a4 =
      { status := 429, answer? := none,
        detail := "Too many questions. I need time to think. Try again in a minute.",
        state := (api_ask (api_ask (api_ask st0 addr t1 q1 k1 a1).state
          addr t2 q2 k2 a2).state addr t3 q3 k3 a3).state,
        apiCalled := false } := by
    rw [api_ask.eq_def, if_pos hr4']
  rw [hfin]
  exact ⟨hr1, hr2', hr3', rfl, rfl, rfl, rfl⟩

/-- Witness for C5: four concrete requests from one address at times
0, 10, 20, 59 starting from an empty state. -/
theorem C5_witness :
    rateAllowed (AskState.mk [] [] 0).hits "9.9.9.9" 0 = true ∧
    rateAllowed (api_ask ⟨[], [], 0⟩ "9.9.9.9" 0 "a" none ApiOutcome.otherError).state.hits
      "9.9.9.9" 10 = true ∧
    rateAllowed (api_ask (api_ask ⟨[], [], 0⟩ "9.9.9.9" 0 "a" none ApiOutcome.otherError).state
      "9.9.9.9" 10 "b" none ApiOutcome.otherError).state.hits "9.9.9.9" 20 = true ∧
    (api_ask (api_ask (api_ask (api_ask ⟨[], [], 0⟩ "9.9.9.9" 0 "a" none
        ApiOutcome.otherError).state "9.9.9.9" 10 "b" none ApiOutcome.otherError).state
        "9.9.9.9" 20 "c" none ApiOutcome.otherError).state "9.9.9.9" 59 "d" none
        ApiOutcome.otherError).status = 429 ∧
    (api_ask (api_ask (api_ask (api_ask ⟨[], [], 0⟩ "9.9.9.9" 0 "a" none
        ApiOutcome.otherError).state "9.9.9.9" 10 "b" none ApiOutcome.otherError).state
        "9.9.9.9" 20 "c" none ApiOutcome.otherError).state "9.9.9.9" 59 "d" none
        ApiOutcome.otherError).detail =
      "Too many questions. I need time to think. Try again in a minute." ∧
    (api_ask (api_ask (api_ask (api_ask ⟨[], [], 0⟩ "9.9.9.9" 0 "a" none
        ApiOutcome.otherError).state "9.9.9.9" 10 "b" none ApiOutcome.otherError).state
        "9.9.9.9" 20 "c" none ApiOutcome.otherError).state "9.9.9.9" 59 "d" none
        ApiOutcome.otherError).apiCalled = false ∧
    (api_ask (api_ask (api_ask (api_ask ⟨[], [], 0⟩ "9.9.9.9" 0 "a" none
        ApiOutcome.otherError).state "9.9.9.9" 10 "b" none ApiOutcome.otherError).state
        "9.9.9.9" 20 "c" none ApiOutcome.otherError).state "9.9.9.9" 59 "d" none
        ApiOutcome.otherError).state.questions =
      (api_ask (api_ask (api_ask ⟨[], [], 0⟩ "9.9.9.9" 0 "a" none
        ApiOutcome.otherError).state "9.9.9.9" 10 "b" none ApiOutcome.otherError).state
        "9.9.9.9" 20 "c" none ApiOutcome.otherError).state.questions :=
  C5_fourth_request_429 ⟨[], [], 0⟩ "9.9.9.9" 0 10 20 59 "a" "b" "c" "d"
    none none none none ApiOutcome.otherError ApiOutcome.otherError
    ApiOutcome.otherError ApiOutcome.otherError
    (by intro p hp; exact absurd hp (List.not_mem_nil p))
    (by omega) (by omega) (by omega) (by omega)
